import Mathlib

/-!
Shallow embedding of the LoRaManager LoRaWAN session manager
(src/LoRaManager.cpp, include/LoRaManager.h) and proofs about its
join/transmit/device-class state machine.

Machine integers are modelled as Nat/Int with explicit reductions modulo
2^w where the C type's wrap-around can matter (uint8_t counters, uint16_t
backoff, uint32_t millis arithmetic).  The external RadioLib collaborator
is modelled as an oracle environment supplying the outcome code of each
activateOTAA / sendReceive call, the radio's RSSI/SNR readings, the
current millis() value and the random() draw.  Serial logging is not
modelled; delay(ms) calls are recorded in an explicit list so that the
backoff schedule is observable.
-/

/- RadioLib outcome codes.  The first group is pinned by the repository's
   own fallback defines in LoRaManager.cpp; the second group comes from the
   external RadioLib headers, which are out of scope for this repository
   (the spec treats them as an abstract classifier), so their values are
   modelled as distinct integers matching the spec's distinct categories. -/

/-- Error code: invalid internal state (node not initialized). Value from
the repository's own define. -/
def RADIOLIB_ERR_INVALID_STATE : Int := -1

/-- Error code: invalid input. Value from the repository's own define. -/
def RADIOLIB_ERR_INVALID_INPUT : Int := -3

/-- Error code: no channel available. Value from the repository's own
define. -/
def RADIOLIB_ERR_NO_CHANNEL_AVAILABLE : Int := -1106

/-- Outcome: uplink succeeded, no downlink. Value from the repository's
own define. -/
def RADIOLIB_LORAWAN_NO_DOWNLINK : Int := -5

/-- Modelled from the spec: RadioLib success code, external to this
repository. -/
def RADIOLIB_ERR_NONE : Int := 0

/-- Modelled from the spec: RadioLib code for a freshly started LoRaWAN
session after OTAA, external to this repository. -/
def RADIOLIB_LORAWAN_NEW_SESSION : Int := 2

/-- Modelled from the spec: RadioLib code for operating while not joined,
external to this repository. -/
def RADIOLIB_ERR_NETWORK_NOT_JOINED : Int := -1101

/-- Modelled from the spec: RadioLib transmission-timeout code, external
to this repository; distinct from the success codes, as the spec's
classifier treats Timeout as a retryable failure. -/
def RADIOLIB_ERR_TX_TIMEOUT : Int := -7

/-- Band type constant from LoRaManager.h. -/
def BAND_TYPE_US915 : Nat := 1

/-- Band type constant from LoRaManager.h. -/
def BAND_TYPE_EU868 : Nat := 2

/-- Band type constant from LoRaManager.h. -/
def BAND_TYPE_OTHER : Nat := 0

/-- Device class constant from LoRaManager.h. -/
def DEVICE_CLASS_A : Char := 'A'

/-- Device class constant from LoRaManager.h. -/
def DEVICE_CLASS_B : Char := 'B'

/-- Device class constant from LoRaManager.h. -/
def DEVICE_CLASS_C : Char := 'C'

/-- Beacon state constant from LoRaManager.h. -/
def BEACON_STATE_IDLE : Nat := 0

/-- Beacon state constant from LoRaManager.h. -/
def BEACON_STATE_ACQUISITION : Nat := 1

/-- Beacon state constant from LoRaManager.h. -/
def BEACON_STATE_LOCKED : Nat := 2

/-- Beacon state constant from LoRaManager.h. -/
def BEACON_STATE_LOST : Nat := 3

/-- The mutable fields of the LoRaManager object (LoRaManager.h, private
section).  Pointers are modelled by initialization flags; the RSSI/SNR
floats are only ever copied, never computed with, so they are modelled as
integers.  Callback registration is modelled by a Boolean flag, and a
dispatched callback shows up as an emitted event. -/
structure LMState where
  joinEUI : Nat
  devEUI : Nat
  appKey : List Int
  nwkKey : List Int
  bandNum : Nat
  subBand : Nat
  isJoined : Bool
  lastRssi : Int
  lastSnr : Int
  consecutiveTransmitErrors : Nat
  lastErrorCode : Int
  deviceClass : Char
  beaconState : Nat
  pingSlotPeriodicity : Nat
  beaconCbSet : Bool
  lastBeaconTimestamp : Nat
  continuousReception : Bool
  nextPingSlotTime : Nat
  beaconPeriod : Nat
  lastBeaconRxTime : Nat
  nodeInit : Bool
  radioInit : Bool
deriving DecidableEq

/-- Oracle environment standing for the external RadioLib transceiver and
the Arduino runtime: outcome code of the k-th activateOTAA call, outcome
code of the k-th sendReceive call, RSSI/SNR readings, millis() and the
random(500) draw. -/
structure Env where
  act : Nat → Int
  snd : Nat → Int
  rssiVal : Int
  snrVal : Int
  now : Nat
  rnd : Nat

/-- State of the LoRaManager right after the constructor and a successful
begin(): class A, beacon Idle, not joined, no continuous reception, node
and radio initialized, default US915 (bandNum 2) subband 2. -/
def initialState : LMState :=
  { joinEUI := 0
    devEUI := 0
    appKey := List.replicate 16 0
    nwkKey := List.replicate 16 0
    bandNum := 2
    subBand := 2
    isJoined := false
    lastRssi := 0
    lastSnr := 0
    consecutiveTransmitErrors := 0
    lastErrorCode := RADIOLIB_ERR_NONE
    deviceClass := DEVICE_CLASS_A
    beaconState := BEACON_STATE_IDLE
    pingSlotPeriodicity := 0
    beaconCbSet := false
    lastBeaconTimestamp := 0
    continuousReception := false
    nextPingSlotTime := 0
    beaconPeriod := 128000
    lastBeaconRxTime := 0
    nodeInit := true
    radioInit := true }

/-- getBandType (LoRaManager.cpp, lines 105-122): map the band number to a
band type constant. -/
def getBandType (st : LMState) : Nat :=
  if st.bandNum = 0 then BAND_TYPE_OTHER
  else if st.bandNum = 2 then BAND_TYPE_US915
  else if st.bandNum = 1 then BAND_TYPE_EU868
  else BAND_TYPE_OTHER

/-- configureSubbandChannels (LoRaManager.cpp, lines 218-244): validate
the target subband; in RadioLib 7 the channel mask itself is configured at
node initialization, so on the success paths this only returns a code. -/
def configureSubbandChannels (st : LMState) (targetSubBand : Nat) : Int :=
  if st.nodeInit = false then RADIOLIB_ERR_INVALID_STATE
  else if getBandType st ≠ BAND_TYPE_US915 then RADIOLIB_ERR_NONE
  else if targetSubBand < 1 ∨ targetSubBand > 8 then RADIOLIB_ERR_INVALID_INPUT
  else RADIOLIB_ERR_NONE

/- Hex-credential parsing (LoRaManager.cpp, lines 247-297).  The loop body
   calls strtol(byteStr, &endPtr, 16) on each 2-character substring and
   rejects the pair unless *endPtr == NUL. -/

/-- C isspace characters (codes 9-13 and 32), which strtol skips. -/
def isSpaceChar (c : Char) : Bool :=
  c.toNat = 9 ∨ c.toNat = 10 ∨ c.toNat = 11 ∨ c.toNat = 12 ∨ c.toNat = 13 ∨ c.toNat = 32

/-- Value of a hexadecimal digit character (0-9, a-f, A-F by character
code), none for any other character. -/
def hexDigitVal (c : Char) : Option Nat :=
  if 48 ≤ c.toNat ∧ c.toNat ≤ 57 then some (c.toNat - 48)
  else if 97 ≤ c.toNat ∧ c.toNat ≤ 102 then some (c.toNat - 87)
  else if 65 ≤ c.toNat ∧ c.toNat ≤ 70 then some (c.toNat - 55)
  else none

/-- Whether a character is a hexadecimal digit. -/
def isHexDigitChar (c : Char) : Bool := (hexDigitVal c).isSome

/-- The character list a C routine sees when handed a char buffer: the
prefix up to the first NUL terminator. -/
def cStringOf (cs : List Char) : List Char :=
  cs.takeWhile (fun c => c ≠ Char.ofNat 0)

/-- Accumulate the numeric value of a hex-digit list, most significant
digit first. -/
def hexNatOfDigits (ds : List Char) : Nat :=
  ds.foldl (fun acc c => acc * 16 + (hexDigitVal c).getD 0) 0

/-- C strtol with base 16 on a NUL-free character list: skip leading
whitespace, consume an optional sign and an optional 0x prefix (only when
a hex digit follows it), then the longest run of hex digits.  Returns the
parsed value and the unconsumed suffix (the endPtr position); when no
digits are consumed it returns 0 with endPtr at the start, as the C
standard requires. -/
def strtol16 (s : List Char) : Int × List Char :=
  let s1 := s.dropWhile isSpaceChar
  let neg := s1.headD (Char.ofNat 0) = '-'
  let s2 := if s1.headD (Char.ofNat 0) = '-' ∨ s1.headD (Char.ofNat 0) = '+'
            then s1.tail else s1
  let s3 := if s2.getD 0 (Char.ofNat 0) = '0'
               ∧ (s2.getD 1 (Char.ofNat 0) = 'x' ∨ s2.getD 1 (Char.ofNat 0) = 'X')
               ∧ isHexDigitChar (s2.getD 2 (Char.ofNat 0))
            then s2.drop 2 else s2
  let digits := s3.takeWhile isHexDigitChar
  let rest := s3.dropWhile isHexDigitChar
  if digits = [] then (0, s)
  else ((if neg then -(hexNatOfDigits digits : Int) else (hexNatOfDigits digits : Int)), rest)

/-- One iteration of the hexStringToByteArray loop body: strtol on the
2-character substring, checking that the whole C string was consumed
(*endPtr == NUL); the resulting long is cast to uint8_t (reduction modulo
256). -/
def parseHexPair (c0 c1 : Char) : Option Int :=
  let s := cStringOf [c0, c1]
  let r := strtol16 s
  if r.2 = [] then some (r.1 % 256) else none

/-- The byte-writing loop of hexStringToByteArray (LoRaManager.cpp, lines
255-271), with fuel counting the remaining iterations (resultLen - i).
Bytes already converted stay written when a later pair fails. -/
def hexLoop (hex : List Char) : Nat → List Int → Nat → Bool × List Int
  | 0, result, _ => (true, result)
  | fuel + 1, result, i =>
    let byteVal := parseHexPair (hex.getD (2 * i) (Char.ofNat 0)) (hex.getD (2 * i + 1) (Char.ofNat 0))
    if byteVal = none then (false, result)
    else hexLoop hex fuel (result.set i (byteVal.getD 0)) (i + 1)

/-- hexStringToByteArray (LoRaManager.cpp, lines 247-274): length check,
then the pair-conversion loop. -/
def hexStringToByteArray (hexString : List Char) (result : List Int) (resultLen : Nat) :
    Bool × List Int :=
  if hexString.length ≠ resultLen * 2 then (false, result)
  else hexLoop hexString resultLen result 0

/-- setCredentialsHex (LoRaManager.cpp, lines 287-297): store the EUIs,
then convert both key strings in place; report success only if both
conversions succeeded. -/
def setCredentialsHex (st : LMState) (joinEUI devEUI : Nat)
    (appKeyHex nwkKeyHex : List Char) : Bool × LMState :=
  let st1 := { st with joinEUI := joinEUI, devEUI := devEUI }
  let aRes := hexStringToByteArray appKeyHex st1.appKey 16
  let st2 := { st1 with appKey := aRes.2 }
  let nRes := hexStringToByteArray nwkKeyHex st2.nwkKey 16
  let st3 := { st2 with nwkKey := nRes.2 }
  (aRes.1 && nRes.1, st3)

/-- Specification-side validity predicate, following the spec's words: a
key string of exactly 32 hexadecimal characters (case-insensitive, no
separators). -/
def specHexKeyValid (s : List Char) : Bool :=
  (s.length == 32) && s.all isHexDigitChar

/-- Acceptance of the pairs a key string is cut into, mirroring the loop:
pair i is characters 2i and 2i+1. -/
def pairsAccepted (hex : List Char) : Nat → Nat → Bool
  | 0, _ => true
  | fuel + 1, i =>
    (parseHexPair (hex.getD (2 * i) (Char.ofNat 0)) (hex.getD (2 * i + 1) (Char.ofNat 0))).isSome
      && pairsAccepted hex fuel (i + 1)

/-- What hexStringToByteArray actually accepts for a 16-byte key: a
32-character string all of whose 2-character pairs pass the strtol check. -/
def keyAccepted (s : List Char) : Bool :=
  (s.length == 32) && pairsAccepted s 16 0

/-- Result of a joinNetwork call: the Boolean return value, the mutated
object state, how many activation attempts ran, the delay(ms) calls made,
and the oracle positions after the call. -/
structure JoinR where
  ok : Bool
  st : LMState
  attempts : Nat
  delays : List Nat
  ai : Nat
  si : Nat
deriving DecidableEq

/-- The retry loop of joinNetwork (LoRaManager.cpp, lines 321-406), with
fuel = maxAttempts - attemptCount standing for the while-guard
attemptCount < maxAttempts.  backoff is the uint16_t backoffDelay. -/
def joinLoopF (env : Env) : Nat → LMState → Nat → Nat → Nat → Nat → List Nat → JoinR
  | 0, st, ai, si, attemptCount, _backoff, delays =>
    { ok := false
      st := { st with isJoined := false, lastErrorCode := RADIOLIB_ERR_NETWORK_NOT_JOINED }
      attempts := attemptCount, delays := delays, ai := ai, si := si }
  | fuel + 1, st, ai, si, attemptCount, backoff, delays =>
    let attemptCount' := attemptCount + 1
    let currentSubBand := if attemptCount' = 1 then st.subBand else 1 + (attemptCount' % 8)
    let _maskResult := if getBandType st = BAND_TYPE_US915
                       then configureSubbandChannels st currentSubBand
                       else RADIOLIB_ERR_NONE
    let state := env.act ai
    let st1 := { st with lastErrorCode := state }
    if state = RADIOLIB_ERR_NONE ∨ state = RADIOLIB_LORAWAN_NEW_SESSION then
      let st2 := { st1 with isJoined := true }
      let _sendState := env.snd si
      { ok := true, st := st2, attempts := attemptCount', delays := delays
        ai := ai + 1, si := si + 1 }
    else
      let delays' := delays ++ [backoff]
      let backoff2 := (backoff * 2) % 65536
      let backoff' := if backoff2 > 30000 then 30000 else backoff2
      joinLoopF env fuel st1 (ai + 1) si attemptCount' backoff' delays'

/-- joinNetwork (LoRaManager.cpp, lines 306-413): guard on node
initialization, then up to 5 activation attempts with exponential
backoff starting at 1000 ms. -/
def joinNetwork (st : LMState) (env : Env) (ai si : Nat) : JoinR :=
  if st.nodeInit = false then
    { ok := false, st := { st with lastErrorCode := RADIOLIB_ERR_INVALID_STATE }
      attempts := 0, delays := [], ai := ai, si := si }
  else
    joinLoopF env 5 st ai si 0 1000 []

/-- Result of a sendData call: Boolean return, mutated state, number of
sendReceive transmission attempts, number of joinNetwork invocations made
inside the call, the inter-retry delay(ms) calls, and the oracle
positions after the call. -/
structure SendR where
  ok : Bool
  st : LMState
  attempts : Nat
  joinCalls : Nat
  delays : List Nat
  ai : Nat
  si : Nat
deriving DecidableEq

/-- The transmission retry loop of sendData (LoRaManager.cpp, lines
448-589), with fuel = maxAttempts - attemptCount standing for the
while-guard.  The downlink buffer handling and callback dispatch on
success are not observed by any claim and are omitted. -/
def sendLoopF (env : Env) : Nat → LMState → Nat → Nat → Nat → Nat → List Nat → SendR
  | 0, st, ai, si, attemptCount, joinCalls, delays =>
    { ok := false, st := st, attempts := attemptCount, joinCalls := joinCalls
      delays := delays, ai := ai, si := si }
  | fuel + 1, st, ai, si, attemptCount, joinCalls, delays =>
    let ac := attemptCount + 1
    let state := env.snd si
    let si1 := si + 1
    let st1 := { st with lastErrorCode := state }
    if state = RADIOLIB_ERR_NONE ∨ state > 0 ∨ state = RADIOLIB_LORAWAN_NO_DOWNLINK then
      { ok := true
        st := { st1 with lastRssi := env.rssiVal, lastSnr := env.snrVal
                         consecutiveTransmitErrors := 0 }
        attempts := ac, joinCalls := joinCalls, delays := delays, ai := ai, si := si1 }
    else
      let r :=
        if state = RADIOLIB_ERR_TX_TIMEOUT then
          (true, st1, ai, si1, joinCalls)
        else if state = RADIOLIB_ERR_NETWORK_NOT_JOINED then
          let stX := { st1 with isJoined := false }
          let jr := joinNetwork stX env ai si1
          (jr.ok, jr.st, jr.ai, jr.si, joinCalls + 1)
        else if state = RADIOLIB_ERR_NO_CHANNEL_AVAILABLE then
          if getBandType st1 = BAND_TYPE_US915 then
            let maskResult := configureSubbandChannels st1 (1 + (ac % 8))
            (maskResult == RADIOLIB_ERR_NONE, st1, ai, si1, joinCalls)
          else
            (decide (ac < 3), st1, ai, si1, joinCalls)
        else
          (decide (ac < 3), st1, ai, si1, joinCalls)
      let shouldRetry := r.1
      let st2 := r.2.1
      let ai2 := r.2.2.1
      let si2 := r.2.2.2.1
      let jc2 := r.2.2.2.2
      let st3 := { st2 with consecutiveTransmitErrors := (st2.consecutiveTransmitErrors + 1) % 256 }
      if shouldRetry = true ∧ ac < 3 then
        sendLoopF env fuel st3 ai2 si2 ac jc2 (delays ++ [3000])
      else
        let st4 := if st3.consecutiveTransmitErrors ≥ 3 then { st3 with isJoined := false } else st3
        { ok := false, st := st4, attempts := ac, joinCalls := jc2
          delays := delays, ai := ai2, si := si2 }

/-- sendData (LoRaManager.cpp, lines 416-594): joined guard, payload
guard, the (unreachable) inline-rejoin block of lines 437-445, then up to
3 transmission attempts.  A null data pointer is modelled as the empty
payload list. -/
def sendData (st : LMState) (env : Env) (ai si : Nat) (data : List Nat)
    (_port : Nat) (_confirmed : Bool) : SendR :=
  if st.isJoined = false then
    { ok := false, st := { st with lastErrorCode := RADIOLIB_ERR_NETWORK_NOT_JOINED }
      attempts := 0, joinCalls := 0, delays := [], ai := ai, si := si }
  else if data.length = 0 then
    { ok := false, st := { st with lastErrorCode := RADIOLIB_ERR_INVALID_INPUT }
      attempts := 0, joinCalls := 0, delays := [], ai := ai, si := si }
  else if st.isJoined = false then
    let jr := joinNetwork st env ai si
    if jr.ok then sendLoopF env 3 jr.st jr.ai jr.si 0 1 []
    else { ok := false, st := jr.st, attempts := 0, joinCalls := 1
           delays := jr.delays, ai := jr.ai, si := jr.si }
  else
    sendLoopF env 3 st ai si 0 0 []

/-- startBeaconAcquisition (LoRaManager.cpp, lines 744-772): requires
initialized node and radio and a joined session; on success enters
Acquisition and records the time. -/
def startBeaconAcquisition (st : LMState) (now : Nat) : Bool × LMState :=
  if st.nodeInit = false ∨ st.radioInit = false then
    (false, { st with lastErrorCode := RADIOLIB_ERR_INVALID_STATE })
  else if st.isJoined = false then
    (false, { st with lastErrorCode := RADIOLIB_ERR_NETWORK_NOT_JOINED })
  else
    (true, { st with beaconState := BEACON_STATE_ACQUISITION, lastBeaconRxTime := now })

/-- stopBeaconAcquisition (LoRaManager.cpp, lines 775-783). -/
def stopBeaconAcquisition (st : LMState) : LMState :=
  if st.beaconState ≠ BEACON_STATE_IDLE then { st with beaconState := BEACON_STATE_IDLE } else st

/-- startContinuousReception (LoRaManager.cpp, lines 873-899): requires
initialized node and radio and a joined session; on success sets the
continuous-reception flag. -/
def startContinuousReception (st : LMState) : Bool × LMState :=
  if st.nodeInit = false ∨ st.radioInit = false then
    (false, { st with lastErrorCode := RADIOLIB_ERR_INVALID_STATE })
  else if st.isJoined = false then
    (false, { st with lastErrorCode := RADIOLIB_ERR_NETWORK_NOT_JOINED })
  else
    (true, { st with continuousReception := true })

/-- stopContinuousReception (LoRaManager.cpp, lines 902-909). -/
def stopContinuousReception (st : LMState) : LMState :=
  if st.continuousReception then { st with continuousReception := false } else st

/-- setDeviceClass (LoRaManager.cpp, lines 686-736): validate the target,
no-op on the current class, otherwise assign the new class first and then
run the transition actions. -/
def setDeviceClass (st : LMState) (now : Nat) (c : Char) : Bool × LMState :=
  if c ≠ DEVICE_CLASS_A ∧ c ≠ DEVICE_CLASS_B ∧ c ≠ DEVICE_CLASS_C then
    (false, { st with lastErrorCode := RADIOLIB_ERR_INVALID_INPUT })
  else if st.deviceClass = c then (true, st)
  else
    let previousClass := st.deviceClass
    let st1 := { st with deviceClass := c }
    if c = DEVICE_CLASS_A then
      let st2 := if previousClass = DEVICE_CLASS_B then stopBeaconAcquisition st1
                 else if previousClass = DEVICE_CLASS_C then stopContinuousReception st1
                 else st1
      (true, st2)
    else if c = DEVICE_CLASS_B then
      let st2 := if previousClass = DEVICE_CLASS_C then stopContinuousReception st1 else st1
      startBeaconAcquisition st2 now
    else if c = DEVICE_CLASS_C then
      let st2 := if previousClass = DEVICE_CLASS_B then stopBeaconAcquisition st1 else st1
      startContinuousReception st2
    else
      (false, st1)

/-- handleBeaconReception (LoRaManager.cpp, lines 825-845): stamp the
reception time, copy the signal metrics, and dispatch to the beacon
callback when one is registered (the emitted event carries the payload
and metrics handed to the callback). -/
def handleBeaconReception (st : LMState) (now : Nat) (payload : List Nat)
    (rssi snr : Int) : LMState × Option (List Nat × Int × Int) :=
  let st1 := { st with lastBeaconTimestamp := now, lastRssi := rssi, lastSnr := snr }
  (st1, if st.beaconCbSet then some (payload, rssi, snr) else none)

/-- calculateNextPingSlot (LoRaManager.cpp, lines 848-870): pingPeriod =
1 << (5 + pingSlotPeriodicity) seconds (uint32_t), next slot at millis()
+ pingPeriod*1000 + random(500), in uint32 arithmetic. -/
def calculateNextPingSlot (st : LMState) (env : Env) : LMState :=
  let pingPeriod := (2 ^ (5 + st.pingSlotPeriodicity)) % 2 ^ 32
  let pingOffset := env.rnd % 500
  { st with nextPingSlotTime := (env.now + (pingPeriod * 1000) % 2 ^ 32 + pingOffset) % 2 ^ 32 }

/-- setPingSlotPeriodicity (LoRaManager.cpp, lines 786-806): reject
values above 7, store the new periodicity, and recompute the ping slot
when in Class B with a locked beacon. -/
def setPingSlotPeriodicity (st : LMState) (env : Env) (periodicity : Nat) : Bool × LMState :=
  if periodicity > 7 then
    (false, { st with lastErrorCode := RADIOLIB_ERR_INVALID_INPUT })
  else
    let st1 := { st with pingSlotPeriodicity := periodicity }
    let st2 := if st1.deviceClass = DEVICE_CLASS_B ∧ st1.beaconState = BEACON_STATE_LOCKED
               then calculateNextPingSlot st1 env else st1
    (true, st2)

/-- States reachable from the post-initialization state through the
public operations named in the device-class invariant claim. -/
inductive Reach : LMState → Prop where
  | init : Reach initialState
  | stepSetClass : ∀ {s : LMState} (now : Nat) (c : Char),
      Reach s → Reach (setDeviceClass s now c).2
  | stepStartBeacon : ∀ {s : LMState} (now : Nat),
      Reach s → Reach (startBeaconAcquisition s now).2
  | stepStopBeacon : ∀ {s : LMState}, Reach s → Reach (stopBeaconAcquisition s)
  | stepSetPing : ∀ {s : LMState} (env : Env) (p : Nat),
      Reach s → Reach (setPingSlotPeriodicity s env p).2
  | stepJoin : ∀ {s : LMState} (env : Env) (ai si : Nat),
      Reach s → Reach (joinNetwork s env ai si).st
  | stepSend : ∀ {s : LMState} (env : Env) (ai si : Nat) (data : List Nat)
      (port : Nat) (confirmed : Bool),
      Reach s → Reach (sendData s env ai si data port confirmed).st

/-- States reachable when beacon acquisition is only ever started through
setDeviceClass, never by a direct startBeaconAcquisition call. -/
inductive ReachSafe : LMState → Prop where
  | init : ReachSafe initialState
  | stepSetClass : ∀ {s : LMState} (now : Nat) (c : Char),
      ReachSafe s → ReachSafe (setDeviceClass s now c).2
  | stepStopBeacon : ∀ {s : LMState}, ReachSafe s → ReachSafe (stopBeaconAcquisition s)
  | stepSetPing : ∀ {s : LMState} (env : Env) (p : Nat),
      ReachSafe s → ReachSafe (setPingSlotPeriodicity s env p).2
  | stepJoin : ∀ {s : LMState} (env : Env) (ai si : Nat),
      ReachSafe s → ReachSafe (joinNetwork s env ai si).st
  | stepSend : ∀ {s : LMState} (env : Env) (ai si : Nat) (data : List Nat)
      (port : Nat) (confirmed : Bool),
      ReachSafe s → ReachSafe (sendData s env ai si data port confirmed).st

/-! Concrete fixtures used by the counterexample and trace theorems. -/

/-- Environment whose radio always reports success (a join attempt made
against it would succeed immediately). -/
def envJoinOk : Env :=
  { act := fun _ => RADIOLIB_ERR_NONE, snd := fun _ => RADIOLIB_ERR_NONE
    rssiVal := -90, snrVal := 6, now := 0, rnd := 0 }

/-- Environment whose radio always fails with the unclassified code
-1234 (handled by the default retry branch). -/
def envAllFail : Env :=
  { act := fun _ => -1234, snd := fun _ => -1234
    rssiVal := 0, snrVal := 0, now := 0, rnd := 0 }

/-- An initialized manager whose session is joined. -/
def stJoined : LMState := { initialState with isJoined := true }

/-- Result of a sendData call on a joined session whose three
transmission attempts all fail. -/
def sendRFail : SendR := sendData stJoined envAllFail 0 0 [1] 1 false

/-- The per-attempt delay values produced by the join loop's uint16_t
backoff update, starting from a given backoff, for a given number of
failing attempts. -/
def backoffSeq : Nat → Nat → List Nat
  | _, 0 => []
  | b, fuel + 1 =>
    b :: backoffSeq (if (b * 2) % 65536 > 30000 then 30000 else (b * 2) % 65536) fuel

/-- When every activation attempt the loop will consume fails, the join
loop runs all remaining attempts, emits the backoff sequence, marks the
session not joined and overwrites the last error code with the fixed
NetworkNotJoined code. -/
theorem joinLoopF_allFail (env : Env) : ∀ (fuel : Nat) (st : LMState)
    (ai si attemptCount backoff : Nat) (delays : List Nat),
    (∀ k, k < fuel →
      ¬(env.act (ai + k) = RADIOLIB_ERR_NONE ∨ env.act (ai + k) = RADIOLIB_LORAWAN_NEW_SESSION)) →
    joinLoopF env fuel st ai si attemptCount backoff delays =
      { ok := false
        st := { st with isJoined := false, lastErrorCode := RADIOLIB_ERR_NETWORK_NOT_JOINED }
        attempts := attemptCount + fuel
        delays := delays ++ backoffSeq backoff fuel
        ai := ai + fuel, si := si } := by
  intro fuel
  induction fuel with
  | zero =>
    intro st ai si c b d _
    simp [joinLoopF, backoffSeq]
  | succ n ih =>
    intro st ai si c b d hf
    have h0 : ¬(env.act ai = RADIOLIB_ERR_NONE ∨ env.act ai = RADIOLIB_LORAWAN_NEW_SESSION) := by
      simpa using hf 0 (Nat.succ_pos n)
    have hrest : ∀ k, k < n →
        ¬(env.act (ai + 1 + k) = RADIOLIB_ERR_NONE ∨
          env.act (ai + 1 + k) = RADIOLIB_LORAWAN_NEW_SESSION) := by
      intro k hk
      have := hf (k + 1) (by omega)
      simpa [Nat.add_assoc, Nat.add_comm 1 k] using this
    simp only [joinLoopF]
    rw [if_neg h0]
    rw [ih _ _ _ _ _ _ hrest]
    simp [backoffSeq, List.append_assoc]
    omega

/-- joinNetwork on an initialized node whose activation attempts all
fail: 5 attempts, delays 1000/2000/4000/8000/16000, session not joined,
last error code forced to NetworkNotJoined. -/
theorem joinNetwork_allFail (st : LMState) (env : Env) (ai si : Nat)
    (hn : st.nodeInit = true)
    (hf : ∀ k, k < 5 →
      ¬(env.act (ai + k) = RADIOLIB_ERR_NONE ∨ env.act (ai + k) = RADIOLIB_LORAWAN_NEW_SESSION)) :
    joinNetwork st env ai si =
      { ok := false
        st := { st with isJoined := false, lastErrorCode := RADIOLIB_ERR_NETWORK_NOT_JOINED }
        attempts := 5, delays := [1000, 2000, 4000, 8000, 16000]
        ai := ai + 5, si := si } := by
  unfold joinNetwork
  rw [if_neg (by simp [hn])]
  rw [joinLoopF_allFail env 5 st ai si 0 1000 [] hf]
  have hb : backoffSeq 1000 5 = [1000, 2000, 4000, 8000, 16000] := by decide
  simp [hb]

/-- C3: when joinNetwork is invoked with an initialized node and every
activation attempt fails, exactly 5 attempts are performed and the
backoff waits are exactly 1000, 2000, 4000, 8000, min(16000, 30000)
milliseconds. -/
theorem joinNetwork_backoff_sequence (st : LMState) (env : Env) (ai si : Nat)
    (hn : st.nodeInit = true)
    (hf : ∀ k, k < 5 →
      ¬(env.act (ai + k) = RADIOLIB_ERR_NONE ∨ env.act (ai + k) = RADIOLIB_LORAWAN_NEW_SESSION)) :
    (joinNetwork st env ai si).attempts = 5 ∧
    (joinNetwork st env ai si).delays = [1000, 2000, 4000, 8000, min 16000 30000] := by
  rw [joinNetwork_allFail st env ai si hn hf]
  exact ⟨rfl, rfl⟩

/-- Witness for C3 at a concrete always-failing environment. -/
theorem joinNetwork_backoff_sequence_witness :
    (joinNetwork initialState envAllFail 0 0).attempts = 5 ∧
    (joinNetwork initialState envAllFail 0 0).delays = [1000, 2000, 4000, 8000, min 16000 30000] :=
  joinNetwork_backoff_sequence initialState envAllFail 0 0 rfl (by decide)

/-- C5 counterexample: with every attempt failing with code -1234, the
final attempt's underlying error code (-1234) is not what ends up in
lastErrorCode — the exhaustion path overwrites it with the fixed
NetworkNotJoined code. -/
theorem joinNetwork_lastError_not_propagated :
    (joinNetwork initialState envAllFail 0 0).ok = false ∧
    envAllFail.act 4 = -1234 ∧
    (joinNetwork initialState envAllFail 0 0).st.lastErrorCode ≠ -1234 ∧
    (joinNetwork initialState envAllFail 0 0).st.lastErrorCode = RADIOLIB_ERR_NETWORK_NOT_JOINED := by
  refine ⟨by decide, by decide, by decide, by decide⟩

/-- C5 amended: on exhausting all 5 attempts the session is marked not
joined, the call returns failure, and lastErrorCode is the fixed
NetworkNotJoined code regardless of the final attempt's error. -/
theorem joinNetwork_exhaustion (st : LMState) (env : Env) (ai si : Nat)
    (hn : st.nodeInit = true)
    (hf : ∀ k, k < 5 →
      ¬(env.act (ai + k) = RADIOLIB_ERR_NONE ∨ env.act (ai + k) = RADIOLIB_LORAWAN_NEW_SESSION)) :
    (joinNetwork st env ai si).ok = false ∧
    (joinNetwork st env ai si).st.isJoined = false ∧
    (joinNetwork st env ai si).st.lastErrorCode = RADIOLIB_ERR_NETWORK_NOT_JOINED := by
  rw [joinNetwork_allFail st env ai si hn hf]
  exact ⟨rfl, rfl, rfl⟩

/-- Witness for C5's amended theorem at a concrete environment. -/
theorem joinNetwork_exhaustion_witness :
    (joinNetwork initialState envAllFail 0 0).ok = false ∧
    (joinNetwork initialState envAllFail 0 0).st.isJoined = false ∧
    (joinNetwork initialState envAllFail 0 0).st.lastErrorCode = RADIOLIB_ERR_NETWORK_NOT_JOINED :=
  joinNetwork_exhaustion initialState envAllFail 0 0 rfl (by decide)

/-- C1: evaluation at the failing input.  The session is not joined and
the radio would accept a join (the same environment joins successfully),
yet sendData returns false with NotJoined having made no joinNetwork
call and no transmission attempt: the inline-rejoin block of lines
437-445 is unreachable. -/
theorem sendData_notJoined_skips_rejoin :
    (joinNetwork initialState envJoinOk 0 0).ok = true ∧
    initialState.isJoined = false ∧
    (sendData initialState envJoinOk 0 0 [1] 1 false).ok = false ∧
    (sendData initialState envJoinOk 0 0 [1] 1 false).st.lastErrorCode =
      RADIOLIB_ERR_NETWORK_NOT_JOINED ∧
    (sendData initialState envJoinOk 0 0 [1] 1 false).joinCalls = 0 ∧
    (sendData initialState envJoinOk 0 0 [1] 1 false).attempts = 0 := by
  refine ⟨by decide, rfl, by decide, by decide, by decide, by decide⟩

/-- C2: evaluation at the failing input.  A send on a joined session
with three consecutive failed transmission attempts increments the error
counter to 3 and the returned state has been forced to not-joined; but
the next send call, against a radio that would accept a rejoin, makes no
joinNetwork call and no transmission attempt — it fails immediately with
NotJoined instead of rejoining. -/
theorem sendData_escalation_no_next_rejoin :
    sendRFail.ok = false ∧
    sendRFail.attempts = 3 ∧
    sendRFail.st.consecutiveTransmitErrors = 3 ∧
    sendRFail.st.isJoined = false ∧
    (sendData sendRFail.st envJoinOk sendRFail.ai sendRFail.si [1] 1 false).ok = false ∧
    (sendData sendRFail.st envJoinOk sendRFail.ai sendRFail.si [1] 1 false).joinCalls = 0 ∧
    (sendData sendRFail.st envJoinOk sendRFail.ai sendRFail.si [1] 1 false).attempts = 0 := by
  refine ⟨by decide, by decide, by decide, by decide, by decide, by decide, by decide⟩

/-- C4 counterexample: from class A with an initialized but not-joined
manager, setDeviceClass(B) fails with NotJoined, yet the stored device
class has been changed to B — it is not left unchanged. -/
theorem setDeviceClassB_mutates_on_failure :
    initialState.isJoined = false ∧
    initialState.deviceClass = DEVICE_CLASS_A ∧
    (setDeviceClass initialState 0 DEVICE_CLASS_B).1 = false ∧
    (setDeviceClass initialState 0 DEVICE_CLASS_B).2.lastErrorCode =
      RADIOLIB_ERR_NETWORK_NOT_JOINED ∧
    (setDeviceClass initialState 0 DEVICE_CLASS_B).2.deviceClass = DEVICE_CLASS_B := by
  refine ⟨rfl, rfl, by decide, by decide, by decide⟩

/-- C4 amended: with node and radio initialized and the session not
joined, setDeviceClass(B) from any class other than B fails with
NotJoined but leaves deviceClass equal to B (the target, assigned before
the precondition check); from class B it is a successful no-op. -/
theorem setDeviceClassB_notJoined (st : LMState) (now : Nat)
    (hn : st.nodeInit = true) (hr : st.radioInit = true) (hj : st.isJoined = false) :
    (st.deviceClass = DEVICE_CLASS_B → setDeviceClass st now DEVICE_CLASS_B = (true, st)) ∧
    (st.deviceClass ≠ DEVICE_CLASS_B →
      (setDeviceClass st now DEVICE_CLASS_B).1 = false ∧
      (setDeviceClass st now DEVICE_CLASS_B).2.lastErrorCode =
        RADIOLIB_ERR_NETWORK_NOT_JOINED ∧
      (setDeviceClass st now DEVICE_CLASS_B).2.deviceClass = DEVICE_CLASS_B) := by
  constructor
  · intro hB
    simp +decide [setDeviceClass, hB]
  · intro hB
    by_cases hC : st.deviceClass = DEVICE_CLASS_C
    · by_cases hcr : st.continuousReception = true <;>
        simp +decide [setDeviceClass, startBeaconAcquisition, stopContinuousReception,
          hB, hC, hcr, hn, hr, hj]
    · simp +decide [setDeviceClass, startBeaconAcquisition, stopContinuousReception,
        hB, hC, hn, hr, hj]

/-- C7 fixture: a class-B manager in beacon Acquisition with a
registered beacon callback. -/
def stBeaconAcq : LMState :=
  { initialState with isJoined := true, deviceClass := DEVICE_CLASS_B
                      beaconState := BEACON_STATE_ACQUISITION, beaconCbSet := true }

/-- C7 counterexample: a beacon reception in Acquisition state leaves
beaconState unchanged — handleBeaconReception never transitions it to
Locked. -/
theorem handleBeaconReception_no_lock :
    stBeaconAcq.beaconState = BEACON_STATE_ACQUISITION ∧
    stBeaconAcq.beaconCbSet = true ∧
    (handleBeaconReception stBeaconAcq 5 [1, 2] (-80) 7).1.beaconState ≠ BEACON_STATE_LOCKED := by
  refine ⟨rfl, rfl, by decide⟩

/-- C7 amended: handleBeaconReception stamps the beacon reception time,
stores the rssi/snr metrics, dispatches payload and metrics to the
registered beacon callback, and leaves beaconState (and every other
field) unchanged. -/
theorem handleBeaconReception_spec (st : LMState) (now : Nat) (payload : List Nat)
    (rssi snr : Int) :
    (handleBeaconReception st now payload rssi snr).1 =
      { st with lastBeaconTimestamp := now, lastRssi := rssi, lastSnr := snr } ∧
    (handleBeaconReception st now payload rssi snr).2 =
      (if st.beaconCbSet then some (payload, rssi, snr) else none) :=
  ⟨rfl, rfl⟩

/-- C10 fixture: a 32-character key string whose first pair is valid hex
and whose third character is not a hex digit. -/
def partialBadKey : List Char := "01g00000000000000000000000000000".toList

/-- All-zero 32-character hex key string. -/
def zeroKey : List Char := "00000000000000000000000000000000".toList

/-- C10: setCredentialsHex always stores the new joinEUI and devEUI
before validating the key strings — also on every failing call — and on
a concrete failing call the appKey bytes have been partially overwritten:
failure is not atomic. -/
theorem setCredentialsHex_not_atomic :
    (∀ (st : LMState) (jE dE : Nat) (aH nH : List Char),
      (setCredentialsHex st jE dE aH nH).2.joinEUI = jE ∧
      (setCredentialsHex st jE dE aH nH).2.devEUI = dE) ∧
    ((setCredentialsHex initialState 7 9 partialBadKey zeroKey).1 = false ∧
     (setCredentialsHex initialState 7 9 partialBadKey zeroKey).2.joinEUI = 7 ∧
     (setCredentialsHex initialState 7 9 partialBadKey zeroKey).2.devEUI = 9 ∧
     (setCredentialsHex initialState 7 9 partialBadKey zeroKey).2.appKey ≠ initialState.appKey) := by
  refine ⟨fun st jE dE aH nH => ⟨rfl, rfl⟩, by decide, by decide, by decide, by decide⟩

/-- Witness for C4's amended theorem at the initial (class A, not
joined) state. -/
theorem setDeviceClassB_notJoined_witness :
    (setDeviceClass initialState 0 DEVICE_CLASS_B).1 = false ∧
    (setDeviceClass initialState 0 DEVICE_CLASS_B).2.lastErrorCode =
      RADIOLIB_ERR_NETWORK_NOT_JOINED ∧
    (setDeviceClass initialState 0 DEVICE_CLASS_B).2.deviceClass = DEVICE_CLASS_B :=
  (setDeviceClassB_notJoined initialState 0 rfl rfl rfl).2 (by decide)

/-- C9: setPingSlotPeriodicity rejects p > 7 with InvalidInput, leaving
every field but lastErrorCode unchanged; for p ≤ 7 it succeeds, stores p,
and when the device is in class B with a locked beacon it recomputes
nextPingSlotTime to now + 2^(5+p)*1000 plus a nonnegative jitter of at
most 499 ms (stated below the uint32 wrap-around). -/
theorem setPingSlotPeriodicity_spec (st : LMState) (env : Env) (p : Nat) :
    (p > 7 → setPingSlotPeriodicity st env p =
      (false, { st with lastErrorCode := RADIOLIB_ERR_INVALID_INPUT })) ∧
    (p ≤ 7 →
      (setPingSlotPeriodicity st env p).1 = true ∧
      (setPingSlotPeriodicity st env p).2.pingSlotPeriodicity = p ∧
      (st.deviceClass = DEVICE_CLASS_B → st.beaconState = BEACON_STATE_LOCKED →
        env.now + 2 ^ (5 + p) * 1000 + 500 < 2 ^ 32 →
        env.now + 2 ^ (5 + p) * 1000 ≤ (setPingSlotPeriodicity st env p).2.nextPingSlotTime ∧
        (setPingSlotPeriodicity st env p).2.nextPingSlotTime ≤
          env.now + 2 ^ (5 + p) * 1000 + 499)) := by
  constructor
  · intro h
    simp [setPingSlotPeriodicity, h]
  · intro hp
    have hng : ¬ p > 7 := by omega
    have hpow : (2 : Nat) ^ (5 + p) ≤ 2 ^ 12 := Nat.pow_le_pow_right (by norm_num) (by omega)
    have h12 : (2 : Nat) ^ 12 = 4096 := by norm_num
    have h32 : (2 : Nat) ^ 32 = 4294967296 := by norm_num
    refine ⟨by simp [setPingSlotPeriodicity, hng], ?_, ?_⟩
    · simp only [setPingSlotPeriodicity, hng, if_false]
      split <;> simp [calculateNextPingSlot]
    · intro hB hL hov
      have e : (setPingSlotPeriodicity st env p).2.nextPingSlotTime =
          (env.now + ((2 ^ (5 + p) % 2 ^ 32) * 1000) % 2 ^ 32 + env.rnd % 500) % 2 ^ 32 := by
        simp [setPingSlotPeriodicity, hng, calculateNextPingSlot, hB, hL]
      have hr5 : env.rnd % 500 < 500 := Nat.mod_lt _ (by norm_num)
      have h1 : (2 : Nat) ^ (5 + p) % 2 ^ 32 = 2 ^ (5 + p) := Nat.mod_eq_of_lt (by omega)
      rw [e, h1]
      have h2 : ((2 : Nat) ^ (5 + p) * 1000) % 2 ^ 32 = 2 ^ (5 + p) * 1000 :=
        Nat.mod_eq_of_lt (by omega)
      rw [h2]
      rw [Nat.mod_eq_of_lt (by omega)]
      omega

/-- A joined class-B manager with a locked beacon. -/
def stBLocked : LMState :=
  { initialState with isJoined := true, deviceClass := DEVICE_CLASS_B
                      beaconState := BEACON_STATE_LOCKED }

/-- Environment fixture for the ping-slot witness: millis() = 10 and a
random draw of 777. -/
def envPing : Env :=
  { act := fun _ => 0, snd := fun _ => 0, rssiVal := 0, snrVal := 0, now := 10, rnd := 777 }

/-- Witness for C9 at p = 8 (rejected with InvalidInput) and p = 7 on a
locked class-B manager (accepted; recomputed slot lands in the claimed
interval). -/
theorem setPingSlotPeriodicity_spec_witness :
    (setPingSlotPeriodicity stBLocked envPing 8 =
      (false, { stBLocked with lastErrorCode := RADIOLIB_ERR_INVALID_INPUT })) ∧
    ((setPingSlotPeriodicity stBLocked envPing 7).1 = true ∧
     (setPingSlotPeriodicity stBLocked envPing 7).2.pingSlotPeriodicity = 7 ∧
     (10 + 2 ^ 12 * 1000 ≤ (setPingSlotPeriodicity stBLocked envPing 7).2.nextPingSlotTime ∧
      (setPingSlotPeriodicity stBLocked envPing 7).2.nextPingSlotTime ≤
        10 + 2 ^ 12 * 1000 + 499)) := by
  constructor
  · exact (setPingSlotPeriodicity_spec stBLocked envPing 8).1 (by norm_num)
  · obtain ⟨h1, h2, h3⟩ := (setPingSlotPeriodicity_spec stBLocked envPing 7).2 (by norm_num)
    exact ⟨h1, h2, h3 rfl rfl (by norm_num [envPing])⟩

/-- The Boolean result of the hex conversion loop depends only on
whether every remaining pair parses, not on the bytes written so far. -/
theorem hexLoop_fst (hex : List Char) : ∀ (fuel : Nat) (arr : List Int) (i : Nat),
    (hexLoop hex fuel arr i).1 = pairsAccepted hex fuel i := by
  intro fuel
  induction fuel with
  | zero => intro arr i; rfl
  | succ n ih =>
    intro arr i
    rw [hexLoop, pairsAccepted]
    cases h : parseHexPair (hex.getD (2 * i) (Char.ofNat 0)) (hex.getD (2 * i + 1) (Char.ofNat 0)) with
    | none => simp [h]
    | some v => simp [h, ih]

/-- hexStringToByteArray with a 16-byte target accepts exactly the
strings keyAccepted describes. -/
theorem hexStringToByteArray_fst (s : List Char) (arr : List Int) :
    (hexStringToByteArray s arr 16).1 = keyAccepted s := by
  unfold hexStringToByteArray keyAccepted
  by_cases h : s.length = 32
  · rw [if_neg (by omega)]
    rw [hexLoop_fst]
    simp [h]
  · rw [if_pos (by omega)]
    simp [beq_iff_eq, h]

/-- A 32-character key string whose first character is the
non-hexadecimal sign +. -/
def plusKey : List Char := "+1000000000000000000000000000000".toList

/-- C8 counterexample: the 32-character string starting with the
non-hexadecimal character + is not spec-valid, yet setCredentialsHex
accepts it (strtol tolerates a sign inside a pair), so wrong characters
do not always cause the call to fail. -/
theorem setCredentialsHex_accepts_nonhex :
    specHexKeyValid plusKey = false ∧
    specHexKeyValid zeroKey = true ∧
    (setCredentialsHex initialState 0 0 plusKey zeroKey).1 = true := by
  refine ⟨by decide, by decide, by decide⟩

/-- A hexadecimal digit differs from every non-hexadecimal character. -/
theorem hexDigit_ne (c d : Char) (h : isHexDigitChar c = true)
    (hd : isHexDigitChar d = false) : c ≠ d := by
  intro e
  rw [e, hd] at h
  exact Bool.false_ne_true h

/-- Hexadecimal digits are not isspace characters. -/
theorem hexDigit_not_space (c : Char) (h : isHexDigitChar c = true) :
    isSpaceChar c = false := by
  simp only [isHexDigitChar, hexDigitVal] at h
  simp only [isSpaceChar, decide_eq_false_iff_not]
  split_ifs at h with h1 h2 h3
  · omega
  · omega
  · omega
  · simp at h

/-- strtol accepts a pair of two hexadecimal digits, consuming both. -/
theorem parseHexPair_hexDigits (c0 c1 : Char) (h0 : isHexDigitChar c0 = true)
    (h1 : isHexDigitChar c1 = true) : (parseHexPair c0 c1).isSome = true := by
  have hnz0 : c0 ≠ Char.ofNat 0 := hexDigit_ne c0 (Char.ofNat 0) h0 (by decide)
  have hnz1 : c1 ≠ Char.ofNat 0 := hexDigit_ne c1 (Char.ofNat 0) h1 (by decide)
  have hs0 : isSpaceChar c0 = false := hexDigit_not_space c0 h0
  have hm : c0 ≠ '-' := hexDigit_ne c0 '-' h0 (by decide)
  have hp : c0 ≠ '+' := hexDigit_ne c0 '+' h0 (by decide)
  have hnul : isHexDigitChar (Char.ofNat 0) = false := by decide
  simp [parseHexPair, cStringOf, strtol16, hnz0, hnz1, hs0, hm, hp, h0, h1, hnul]

/-- Every pair window over an all-hexadecimal 32-character string is
accepted. -/
theorem pairsAccepted_of_all (s : List Char)
    (hidx : ∀ j, j < 32 → isHexDigitChar (s.getD j (Char.ofNat 0)) = true) :
    ∀ (fuel i : Nat), 2 * (i + fuel) ≤ 32 → pairsAccepted s fuel i = true := by
  intro fuel
  induction fuel with
  | zero => intro i _; rfl
  | succ n ih =>
    intro i hle
    simp only [pairsAccepted, Bool.and_eq_true]
    exact ⟨parseHexPair_hexDigits _ _ (hidx (2 * i) (by omega)) (hidx (2 * i + 1) (by omega)),
           ih (i + 1) (by omega)⟩

/-- Every spec-valid key string (exactly 32 hexadecimal characters) is
accepted by the conversion routine. -/
theorem keyAccepted_of_specValid (s : List Char) (h : specHexKeyValid s = true) :
    keyAccepted s = true := by
  simp only [specHexKeyValid, Bool.and_eq_true, beq_iff_eq] at h
  obtain ⟨hlen, hall⟩ := h
  have hidx : ∀ j, j < 32 → isHexDigitChar (s.getD j (Char.ofNat 0)) = true := by
    intro j hj
    have hj' : j < s.length := by omega
    rw [List.getD_eq_getElem s (Char.ofNat 0) hj']
    exact (List.all_eq_true.mp hall) _ (List.getElem_mem hj')
  simp only [keyAccepted, Bool.and_eq_true, beq_iff_eq]
  exact ⟨hlen, pairsAccepted_of_all s hidx 16 0 (by omega)⟩

/-- C8 amended: setCredentialsHex succeeds exactly when both key strings
are 32 characters long and every 2-character pair passes the strtol
full-consumption check; every string of 32 hexadecimal characters
(case-insensitive) passes, but pairs containing leading whitespace or a
sign pass too, so acceptance is strictly wider than the spec's pure-hex
strings. -/
theorem setCredentialsHex_acceptance :
    (∀ (st : LMState) (jE dE : Nat) (aH nH : List Char),
      (setCredentialsHex st jE dE aH nH).1 = (keyAccepted aH && keyAccepted nH)) ∧
    (∀ s : List Char, specHexKeyValid s = true → keyAccepted s = true) := by
  constructor
  · intro st jE dE aH nH
    simp only [setCredentialsHex]
    rw [hexStringToByteArray_fst, hexStringToByteArray_fst]
  · exact keyAccepted_of_specValid

/-- Witness for C8's amended theorem: the all-zero key string is
spec-valid and accepted, and a concrete call returns exactly the
conjunction of the two acceptance predicates. -/
theorem setCredentialsHex_acceptance_witness :
    keyAccepted zeroKey = true ∧
    (setCredentialsHex initialState 0 0 zeroKey zeroKey).1 =
      (keyAccepted zeroKey && keyAccepted zeroKey) :=
  ⟨setCredentialsHex_acceptance.2 zeroKey (by decide),
   setCredentialsHex_acceptance.1 initialState 0 0 zeroKey zeroKey⟩

/-! Field-preservation lemmas: join and send never touch the device
class, the beacon state or the continuous-reception flag. -/

/-- The join loop leaves deviceClass unchanged. -/
theorem joinLoopF_deviceClass (env : Env) : ∀ (fuel : Nat) (st : LMState)
    (ai si c b : Nat) (d : List Nat),
    (joinLoopF env fuel st ai si c b d).st.deviceClass = st.deviceClass := by
  intro fuel
  induction fuel with
  | zero => intros; rfl
  | succ n ih =>
    intro st ai si c b d
    simp only [joinLoopF]
    split
    · rfl
    · simp [ih]

/-- The join loop leaves beaconState unchanged. -/
theorem joinLoopF_beaconState (env : Env) : ∀ (fuel : Nat) (st : LMState)
    (ai si c b : Nat) (d : List Nat),
    (joinLoopF env fuel st ai si c b d).st.beaconState = st.beaconState := by
  intro fuel
  induction fuel with
  | zero => intros; rfl
  | succ n ih =>
    intro st ai si c b d
    simp only [joinLoopF]
    split
    · rfl
    · simp [ih]

/-- The join loop leaves continuousReception unchanged. -/
theorem joinLoopF_contRecep (env : Env) : ∀ (fuel : Nat) (st : LMState)
    (ai si c b : Nat) (d : List Nat),
    (joinLoopF env fuel st ai si c b d).st.continuousReception = st.continuousReception := by
  intro fuel
  induction fuel with
  | zero => intros; rfl
  | succ n ih =>
    intro st ai si c b d
    simp only [joinLoopF]
    split
    · rfl
    · simp [ih]

/-- joinNetwork leaves deviceClass unchanged. -/
theorem joinNetwork_deviceClass (st : LMState) (env : Env) (ai si : Nat) :
    (joinNetwork st env ai si).st.deviceClass = st.deviceClass := by
  unfold joinNetwork
  split
  · rfl
  · exact joinLoopF_deviceClass env 5 st ai si 0 1000 []

/-- joinNetwork leaves beaconState unchanged. -/
theorem joinNetwork_beaconState (st : LMState) (env : Env) (ai si : Nat) :
    (joinNetwork st env ai si).st.beaconState = st.beaconState := by
  unfold joinNetwork
  split
  · rfl
  · exact joinLoopF_beaconState env 5 st ai si 0 1000 []

/-- joinNetwork leaves continuousReception unchanged. -/
theorem joinNetwork_contRecep (st : LMState) (env : Env) (ai si : Nat) :
    (joinNetwork st env ai si).st.continuousReception = st.continuousReception := by
  unfold joinNetwork
  split
  · rfl
  · exact joinLoopF_contRecep env 5 st ai si 0 1000 []

/-- The transmission loop leaves deviceClass unchanged. -/
theorem sendLoopF_deviceClass (env : Env) : ∀ (fuel : Nat) (st : LMState)
    (ai si c jc : Nat) (d : List Nat),
    (sendLoopF env fuel st ai si c jc d).st.deviceClass = st.deviceClass := by
  intro fuel
  induction fuel with
  | zero => intros; rfl
  | succ n ih =>
    intro st ai si c jc d
    simp only [sendLoopF]
    split
    · rfl
    · split_ifs <;> simp [ih, joinNetwork_deviceClass]

/-- The transmission loop leaves beaconState unchanged. -/
theorem sendLoopF_beaconState (env : Env) : ∀ (fuel : Nat) (st : LMState)
    (ai si c jc : Nat) (d : List Nat),
    (sendLoopF env fuel st ai si c jc d).st.beaconState = st.beaconState := by
  intro fuel
  induction fuel with
  | zero => intros; rfl
  | succ n ih =>
    intro st ai si c jc d
    simp only [sendLoopF]
    split
    · rfl
    · split_ifs <;> simp [ih, joinNetwork_beaconState]

/-- The transmission loop leaves continuousReception unchanged. -/
theorem sendLoopF_contRecep (env : Env) : ∀ (fuel : Nat) (st : LMState)
    (ai si c jc : Nat) (d : List Nat),
    (sendLoopF env fuel st ai si c jc d).st.continuousReception = st.continuousReception := by
  intro fuel
  induction fuel with
  | zero => intros; rfl
  | succ n ih =>
    intro st ai si c jc d
    simp only [sendLoopF]
    split
    · rfl
    · split_ifs <;> simp [ih, joinNetwork_contRecep]

/-- sendData leaves deviceClass unchanged. -/
theorem sendData_deviceClass (st : LMState) (env : Env) (ai si : Nat)
    (data : List Nat) (port : Nat) (confirmed : Bool) :
    (sendData st env ai si data port confirmed).st.deviceClass = st.deviceClass := by
  unfold sendData
  split_ifs <;> simp [sendLoopF_deviceClass, joinNetwork_deviceClass]

/-- sendData leaves beaconState unchanged. -/
theorem sendData_beaconState (st : LMState) (env : Env) (ai si : Nat)
    (data : List Nat) (port : Nat) (confirmed : Bool) :
    (sendData st env ai si data port confirmed).st.beaconState = st.beaconState := by
  unfold sendData
  split_ifs <;> simp [sendLoopF_beaconState, joinNetwork_beaconState]

/-- sendData leaves continuousReception unchanged. -/
theorem sendData_contRecep (st : LMState) (env : Env) (ai si : Nat)
    (data : List Nat) (port : Nat) (confirmed : Bool) :
    (sendData st env ai si data port confirmed).st.continuousReception = st.continuousReception := by
  unfold sendData
  split_ifs <;> simp [sendLoopF_contRecep, joinNetwork_contRecep]

/-- Stopping beacon acquisition always leaves beaconState Idle. -/
theorem stopBeaconAcquisition_beaconState (x : LMState) :
    (stopBeaconAcquisition x).beaconState = BEACON_STATE_IDLE := by
  unfold stopBeaconAcquisition
  split_ifs with h
  · rfl
  · simpa using h

/-- Stopping beacon acquisition leaves deviceClass unchanged. -/
theorem stopBeaconAcquisition_deviceClass (x : LMState) :
    (stopBeaconAcquisition x).deviceClass = x.deviceClass := by
  unfold stopBeaconAcquisition
  split_ifs <;> rfl

/-- Stopping beacon acquisition leaves continuousReception unchanged. -/
theorem stopBeaconAcquisition_contRecep (x : LMState) :
    (stopBeaconAcquisition x).continuousReception = x.continuousReception := by
  unfold stopBeaconAcquisition
  split_ifs <;> rfl

/-- Stopping continuous reception always leaves the flag false. -/
theorem stopContinuousReception_contRecep (x : LMState) :
    (stopContinuousReception x).continuousReception = false := by
  unfold stopContinuousReception
  split_ifs with h
  · rfl
  · simpa using h

/-- Stopping continuous reception leaves deviceClass unchanged. -/
theorem stopContinuousReception_deviceClass (x : LMState) :
    (stopContinuousReception x).deviceClass = x.deviceClass := by
  unfold stopContinuousReception
  split_ifs <;> rfl

/-- Stopping continuous reception leaves beaconState unchanged. -/
theorem stopContinuousReception_beaconState (x : LMState) :
    (stopContinuousReception x).beaconState = x.beaconState := by
  unfold stopContinuousReception
  split_ifs <;> rfl

/-- startBeaconAcquisition leaves deviceClass unchanged. -/
theorem startBeaconAcquisition_deviceClass (x : LMState) (now : Nat) :
    (startBeaconAcquisition x now).2.deviceClass = x.deviceClass := by
  unfold startBeaconAcquisition
  split_ifs <;> rfl

/-- startBeaconAcquisition leaves continuousReception unchanged. -/
theorem startBeaconAcquisition_contRecep (x : LMState) (now : Nat) :
    (startBeaconAcquisition x now).2.continuousReception = x.continuousReception := by
  unfold startBeaconAcquisition
  split_ifs <;> rfl

/-- startContinuousReception leaves deviceClass unchanged. -/
theorem startContinuousReception_deviceClass (x : LMState) :
    (startContinuousReception x).2.deviceClass = x.deviceClass := by
  unfold startContinuousReception
  split_ifs <;> rfl

/-- startContinuousReception leaves beaconState unchanged. -/
theorem startContinuousReception_beaconState (x : LMState) :
    (startContinuousReception x).2.beaconState = x.beaconState := by
  unfold startContinuousReception
  split_ifs <;> rfl

/-- setPingSlotPeriodicity leaves deviceClass unchanged. -/
theorem setPingSlotPeriodicity_deviceClass (s : LMState) (env : Env) (p : Nat) :
    (setPingSlotPeriodicity s env p).2.deviceClass = s.deviceClass := by
  unfold setPingSlotPeriodicity calculateNextPingSlot
  split_ifs with h
  · rfl
  · dsimp only
    split <;> rfl

/-- setPingSlotPeriodicity leaves beaconState unchanged. -/
theorem setPingSlotPeriodicity_beaconState (s : LMState) (env : Env) (p : Nat) :
    (setPingSlotPeriodicity s env p).2.beaconState = s.beaconState := by
  unfold setPingSlotPeriodicity calculateNextPingSlot
  split_ifs with h
  · rfl
  · dsimp only
    split <;> rfl

/-- setPingSlotPeriodicity leaves continuousReception unchanged. -/
theorem setPingSlotPeriodicity_contRecep (s : LMState) (env : Env) (p : Nat) :
    (setPingSlotPeriodicity s env p).2.continuousReception = s.continuousReception := by
  unfold setPingSlotPeriodicity calculateNextPingSlot
  split_ifs with h
  · rfl
  · dsimp only
    split <;> rfl

/-- The device-class invariant from the spec: a non-Idle beacon state
only in class B, continuous reception only in class C. -/
def ClassInv (s : LMState) : Prop :=
  (s.beaconState ≠ BEACON_STATE_IDLE → s.deviceClass = DEVICE_CLASS_B) ∧
  (s.continuousReception = true → s.deviceClass = DEVICE_CLASS_C)

/-- setDeviceClass preserves the device-class invariant, whatever target
class (valid or not) it is given. -/
theorem setDeviceClass_classInv (s : LMState) (now : Nat) (c : Char) (h : ClassInv s) :
    ClassInv (setDeviceClass s now c).2 := by
  obtain ⟨h1, h2⟩ := h
  by_cases hval : c ≠ DEVICE_CLASS_A ∧ c ≠ DEVICE_CLASS_B ∧ c ≠ DEVICE_CLASS_C
  · simp only [setDeviceClass, if_pos hval]
    exact ⟨h1, h2⟩
  · have hc : c = DEVICE_CLASS_A ∨ c = DEVICE_CLASS_B ∨ c = DEVICE_CLASS_C := by tauto
    rcases hc with hA | hB | hC
    · subst hA
      by_cases heq : s.deviceClass = DEVICE_CLASS_A
      · have hv : ¬(DEVICE_CLASS_A ≠ DEVICE_CLASS_A ∧ DEVICE_CLASS_A ≠ DEVICE_CLASS_B ∧
            DEVICE_CLASS_A ≠ DEVICE_CLASS_C) := by decide
        simp only [setDeviceClass, if_neg hv, if_pos heq]
        exact ⟨h1, h2⟩
      · by_cases hpB : s.deviceClass = DEVICE_CLASS_B
        · have e : (setDeviceClass s now DEVICE_CLASS_A).2 =
              stopBeaconAcquisition { s with deviceClass := DEVICE_CLASS_A } := by
            simp +decide [setDeviceClass, heq, hpB]
          rw [e]
          refine ⟨fun hx => ?_, fun hcr => ?_⟩
          · rw [stopBeaconAcquisition_beaconState] at hx
            exact absurd rfl hx
          · rw [stopBeaconAcquisition_contRecep] at hcr
            have hc2 := h2 hcr
            rw [hpB] at hc2
            exact absurd hc2 (by decide)
        · by_cases hpC : s.deviceClass = DEVICE_CLASS_C
          · have e : (setDeviceClass s now DEVICE_CLASS_A).2 =
                stopContinuousReception { s with deviceClass := DEVICE_CLASS_A } := by
              simp +decide [setDeviceClass, heq, hpB, hpC]
            rw [e]
            refine ⟨fun hx => ?_, fun hcr => ?_⟩
            · rw [stopContinuousReception_beaconState] at hx
              have hb := h1 hx
              rw [hpC] at hb
              exact absurd hb (by decide)
            · rw [stopContinuousReception_contRecep] at hcr
              exact absurd hcr (by decide)
          · have e : (setDeviceClass s now DEVICE_CLASS_A).2 =
                { s with deviceClass := DEVICE_CLASS_A } := by
              simp +decide [setDeviceClass, heq, hpB, hpC]
            rw [e]
            exact ⟨fun hx => absurd (h1 hx) hpB, fun hcr => absurd (h2 hcr) hpC⟩
    · subst hB
      by_cases heq : s.deviceClass = DEVICE_CLASS_B
      · have hv : ¬(DEVICE_CLASS_B ≠ DEVICE_CLASS_A ∧ DEVICE_CLASS_B ≠ DEVICE_CLASS_B ∧
            DEVICE_CLASS_B ≠ DEVICE_CLASS_C) := by decide
        simp only [setDeviceClass, if_neg hv, if_pos heq]
        exact ⟨h1, h2⟩
      · by_cases hpC : s.deviceClass = DEVICE_CLASS_C
        · have e : (setDeviceClass s now DEVICE_CLASS_B).2 =
              (startBeaconAcquisition
                (stopContinuousReception { s with deviceClass := DEVICE_CLASS_B }) now).2 := by
            simp +decide [setDeviceClass, heq, hpC]
          rw [e]
          refine ⟨fun _ => ?_, fun hcr => ?_⟩
          · rw [startBeaconAcquisition_deviceClass, stopContinuousReception_deviceClass]
          · rw [startBeaconAcquisition_contRecep, stopContinuousReception_contRecep] at hcr
            exact absurd hcr (by decide)
        · have e : (setDeviceClass s now DEVICE_CLASS_B).2 =
              (startBeaconAcquisition { s with deviceClass := DEVICE_CLASS_B } now).2 := by
            simp +decide [setDeviceClass, heq, hpC]
          rw [e]
          refine ⟨fun _ => ?_, fun hcr => ?_⟩
          · rw [startBeaconAcquisition_deviceClass]
          · rw [startBeaconAcquisition_contRecep] at hcr
            exact absurd (h2 hcr) hpC
    · subst hC
      by_cases heq : s.deviceClass = DEVICE_CLASS_C
      · have hv : ¬(DEVICE_CLASS_C ≠ DEVICE_CLASS_A ∧ DEVICE_CLASS_C ≠ DEVICE_CLASS_B ∧
            DEVICE_CLASS_C ≠ DEVICE_CLASS_C) := by decide
        simp only [setDeviceClass, if_neg hv, if_pos heq]
        exact ⟨h1, h2⟩
      · by_cases hpB : s.deviceClass = DEVICE_CLASS_B
        · have e : (setDeviceClass s now DEVICE_CLASS_C).2 =
              (startContinuousReception
                (stopBeaconAcquisition { s with deviceClass := DEVICE_CLASS_C })).2 := by
            simp +decide [setDeviceClass, heq, hpB]
          rw [e]
          refine ⟨fun hx => ?_, fun _ => ?_⟩
          · rw [startContinuousReception_beaconState, stopBeaconAcquisition_beaconState] at hx
            exact absurd rfl hx
          · rw [startContinuousReception_deviceClass, stopBeaconAcquisition_deviceClass]
        · have e : (setDeviceClass s now DEVICE_CLASS_C).2 =
              (startContinuousReception { s with deviceClass := DEVICE_CLASS_C }).2 := by
            simp +decide [setDeviceClass, heq, hpB]
          rw [e]
          refine ⟨fun hx => ?_, fun _ => ?_⟩
          · rw [startContinuousReception_beaconState] at hx
            exact absurd (h1 hx) hpB
          · rw [startContinuousReception_deviceClass]

/-- Every state reachable without a direct startBeaconAcquisition call
satisfies the device-class invariant. -/
theorem reachSafe_classInv (s : LMState) (h : ReachSafe s) : ClassInv s := by
  induction h with
  | init =>
    exact ⟨fun hx => absurd rfl hx, fun hcr => absurd hcr (by decide)⟩
  | stepSetClass now c _ ih =>
    exact setDeviceClass_classInv _ now c ih
  | stepStopBeacon _ ih =>
    refine ⟨fun hx => ?_, fun hcr => ?_⟩
    · exact absurd (stopBeaconAcquisition_beaconState _) hx
    · rw [stopBeaconAcquisition_contRecep] at hcr
      rw [stopBeaconAcquisition_deviceClass]
      exact ih.2 hcr
  | stepSetPing env p _ ih =>
    refine ⟨fun hx => ?_, fun hcr => ?_⟩
    · rw [setPingSlotPeriodicity_beaconState] at hx
      rw [setPingSlotPeriodicity_deviceClass]
      exact ih.1 hx
    · rw [setPingSlotPeriodicity_contRecep] at hcr
      rw [setPingSlotPeriodicity_deviceClass]
      exact ih.2 hcr
  | stepJoin env ai si _ ih =>
    refine ⟨fun hx => ?_, fun hcr => ?_⟩
    · rw [joinNetwork_beaconState] at hx
      rw [joinNetwork_deviceClass]
      exact ih.1 hx
    · rw [joinNetwork_contRecep] at hcr
      rw [joinNetwork_deviceClass]
      exact ih.2 hcr
  | stepSend env ai si data port confirmed _ ih =>
    refine ⟨fun hx => ?_, fun hcr => ?_⟩
    · rw [sendData_beaconState] at hx
      rw [sendData_deviceClass]
      exact ih.1 hx
    · rw [sendData_contRecep] at hcr
      rw [sendData_deviceClass]
      exact ih.2 hcr

/-- The state reached by a successful join followed by a direct call to
the public startBeaconAcquisition while still in class A. -/
def beaconInClassA : LMState :=
  (startBeaconAcquisition (joinNetwork initialState envJoinOk 0 0).st 0).2

/-- C6 counterexample: beaconInClassA is reachable through the claimed
operation set, its beaconState is Acquisition (not Idle), yet its device
class is A — the public startBeaconAcquisition does not check the class,
so the invariant fails on reachable states. -/
theorem beacon_invariant_violated :
    Reach beaconInClassA ∧
    beaconInClassA.beaconState = BEACON_STATE_ACQUISITION ∧
    beaconInClassA.beaconState ≠ BEACON_STATE_IDLE ∧
    beaconInClassA.deviceClass = DEVICE_CLASS_A ∧
    beaconInClassA.deviceClass ≠ DEVICE_CLASS_B := by
  refine ⟨Reach.stepStartBeacon 0 (Reach.stepJoin envJoinOk 0 0 Reach.init),
    by decide, by decide, by decide, by decide⟩

/-- C6 amended: in every state reachable from the initial state through
setDeviceClass, stopBeaconAcquisition, setPingSlotPeriodicity,
joinNetwork and sendData — that is, when beacon acquisition is only ever
entered through setDeviceClass, never by calling the public
startBeaconAcquisition directly — a non-Idle beaconState implies class B
and an active continuousReception implies class C. -/
theorem class_invariant_safe (s : LMState) (h : ReachSafe s) :
    (s.beaconState ≠ BEACON_STATE_IDLE → s.deviceClass = DEVICE_CLASS_B) ∧
    (s.continuousReception = true → s.deviceClass = DEVICE_CLASS_C) :=
  reachSafe_classInv s h

/-- Witness for C6's amended theorem at the initial state. -/
theorem class_invariant_safe_witness :
    (initialState.beaconState ≠ BEACON_STATE_IDLE → initialState.deviceClass = DEVICE_CLASS_B) ∧
    (initialState.continuousReception = true → initialState.deviceClass = DEVICE_CLASS_C) :=
  class_invariant_safe initialState ReachSafe.init
